import Mathlib

/-!
Verification of the EPO patent harvesting and embedding pipeline
(src/main.py and src/embeddeAndStore.py).

Shallow embedding conventions:
- wall-clock times and durations are rationals, passed explicitly where the
  code calls time.time();
- each network call is modelled by an environment value describing the
  response the remote service gives (success payload, or the exception the
  code catches);
- the thread pools of both main functions are modelled as a fold over the
  item list: the as_completed loops visit one future per submitted item and
  capture, per future, either normal completion or the exception the worker
  raised.
-/

namespace EPO

/-- A patent record as inserted into MongoDB by main.py: both fields are
always present in the inserted document (get_abstract, lines 114-123). -/
structure PatentRecord where
  patentNumber : String
  abstract : String
deriving DecidableEq

/-- Result of the external OAuth call made by get_oauth_token
(main.py lines 44-56): some tok models a 2xx response whose JSON body
carries an access token; none models any exception (transport failure, a
non-2xx status raised by raise_for_status, or an unparsable body). -/
structure AuthEnv where
  respond : Option String
deriving DecidableEq

/-- get_oauth_token (main.py lines 44-56): returns the access token on
success; on any exception it logs the error and returns the empty string
(line 56), it never raises. -/
def get_oauth_token (env : AuthEnv) : String :=
  match env.respond with
  | some tok => tok
  | none => ""

/-- The token-owning state of EPOClient (main.py lines 58-77): the token
string, its acquisition time, the validity window in seconds, and the value
of the Authorization header sent with every request. -/
structure EPOClient where
  token : String
  token_acquired_time : ℚ
  token_valid_for : ℚ
  authorization : String
deriving DecidableEq

/-- EPOClient construction (main.py lines 59-70): acquires an initial token
and sets the validity window to 20 minutes. -/
def EPOClient.init (env : AuthEnv) (now : ℚ) : EPOClient :=
  let t := get_oauth_token env
  { token := t
    token_acquired_time := now
    token_valid_for := 20 * 60
    authorization := "Bearer " ++ t }

/-- EPOClient.ensure_token (main.py lines 72-77), paired with the number of
external auth calls performed (0 or 1). The code refreshes exactly when
time.time() - token_acquired_time >= token_valid_for - 60; on refresh it
installs whatever get_oauth_token returned and resets the acquisition
timestamp. The code reads the clock once for the check and once for the
timestamp; the model uses a single instant now for both. -/
def EPOClient.ensure_token (c : EPOClient) (env : AuthEnv) (now : ℚ) :
    EPOClient × Nat :=
  if c.token_valid_for - 60 ≤ now - c.token_acquired_time then
    let t := get_oauth_token env
    ({ c with
        token := t
        authorization := "Bearer " ++ t
        token_acquired_time := now }, 1)
  else (c, 0)

/-- RateLimiter state (main.py lines 29-42): the per-call minimum delay and
the per-thread map of last-call timestamps (an association list keyed by
thread identity). -/
structure RateLimiter where
  delay : ℚ
  last_call : List (Nat × ℚ)
deriving DecidableEq

/-- RateLimiter construction (main.py lines 30-33): the delay is the inverse
of the configured calls-per-second rate; the timestamp map starts empty. -/
def RateLimiter.ofCallsPerSecond (calls_per_second : ℚ) : RateLimiter :=
  { delay := 1 / calls_per_second, last_call := [] }

/-- Dictionary lookup in the last_call map. -/
def lookupThread (m : List (Nat × ℚ)) (tid : Nat) : Option ℚ :=
  match m with
  | [] => none
  | (k, v) :: rest => if k = tid then some v else lookupThread rest tid

/-- Dictionary update in the last_call map. -/
def updateThread (m : List (Nat × ℚ)) (tid : Nat) (t : ℚ) : List (Nat × ℚ) :=
  match m with
  | [] => [(tid, t)]
  | (k, v) :: rest =>
    if k = tid then (k, t) :: rest else (k, v) :: updateThread rest tid t

/-- The amount RateLimiter.wait sleeps (main.py lines 38-41): nothing on the
first call of a thread; otherwise delay minus the elapsed time when the
elapsed time is still below the delay. -/
def RateLimiter.sleepAmount (rl : RateLimiter) (tid : Nat) (now : ℚ) : ℚ :=
  match lookupThread rl.last_call tid with
  | none => 0
  | some last => if now - last < rl.delay then rl.delay - (now - last) else 0

/-- RateLimiter.wait (main.py lines 35-42): returns the updated limiter and
the instant at which the caller resumes (now plus the slept amount). The
new timestamp for the calling thread is taken after the sleep (line 42). -/
def RateLimiter.wait (rl : RateLimiter) (tid : Nat) (now : ℚ) :
    RateLimiter × ℚ :=
  let resume := now + rl.sleepAmount tid now
  ({ rl with last_call := updateThread rl.last_call tid resume }, resume)

/-- The document-id object inside one ops:publication-reference of a search
result (main.py lines 143-148): each field is either absent or a string. -/
structure DocumentId where
  country : Option String
  docNumber : Option String
  kind : Option String
  idType : Option String
deriving DecidableEq

/-- The chained defensive lookup of main.py lines 144-148: a missing field
yields the empty string instead of an error. -/
def getField (o : Option String) : String := o.getD ""

/-- Identifier construction of main.py line 147: country code, document
number and kind code concatenated in order. -/
def buildPatentNumber (d : DocumentId) : String :=
  getField d.country ++ getField d.docNumber ++ getField d.kind

/-- The stage-1 HTTP search interaction for one keyword.
httpStatusError models a caught requests exception that carries an
attached response (a non-2xx status raised by raise_for_status): the print
at main.py line 96 reads e.response.content successfully and
search_patents returns None after logging.
transportError models a caught exception that carries no attached
response — a transport failure, or a JSON decode error raised by
response.json() on a malformed body: the handler itself then evaluates
e.response.content with e.response being None and raises AttributeError
out of search_patents.
body refs models a parsed body whose nested publication-reference chain
yields refs — the chain of .get calls in process_keyword (lines 133-136)
defaults to the empty list when any level of the path is absent. -/
inductive SearchResponse where
  | httpStatusError : SearchResponse
  | transportError : SearchResponse
  | body : List DocumentId → SearchResponse
deriving DecidableEq

/-- EPOClient.search_patents (main.py lines 79-97): returns the parsed body
on success; returns none after logging when the caught exception carries a
response; raises AttributeError — modelled as Except.error — when the
caught exception carries no response, because the handler at line 96
evaluates e.response.content on None. -/
def search_patents (resp : SearchResponse) :
    Except String (Option (List DocumentId)) :=
  match resp with
  | .httpStatusError => .ok none
  | .transportError =>
    .error "AttributeError: NoneType object has no attribute content"
  | .body refs => .ok (some refs)

/-- The stage-2 HTTP abstract response for one patent. httpError models a
requests.RequestException caught inside get_abstract; body t models a
parsed body whose nested abstract text chain yields t, none meaning the
path is absent so the .get default applies (main.py lines 107-112). -/
inductive AbstractResponse where
  | httpError : AbstractResponse
  | body : Option String → AbstractResponse
deriving DecidableEq

/-- EPOClient.get_abstract (main.py lines 99-123): on success returns the
fetched text or the default sentinel when the abstract path is absent; on a
caught request exception returns the fetch-failed sentinel. Either way it
returns a full record and never raises. -/
def get_abstract (resp : AbstractResponse) (patent_number : String) :
    PatentRecord :=
  match resp with
  | .httpError =>
    { patentNumber := patent_number, abstract := "Abstract fetch failed" }
  | .body t =>
    { patentNumber := patent_number, abstract := t.getD "No abstract available" }

/-- Environment for the stage-2 calls: the response the remote API gives for
a given patent number and document-id type. -/
def DetailEnv : Type := String → String → AbstractResponse

/-- The records process_keyword (main.py lines 125-157) inserts one by one
via collection.insert_one, in loop order. When the search call raises, the
exception leaves process_keyword before any insert, and when the search
failure was caught and returned None the function returns early, so both
paths store nothing; otherwise each of the first 100 documents yields
exactly one get_abstract call and one insert. Exceptions inside the loop
body are caught by the enclosing handler. -/
def process_keyword (resp : SearchResponse) (detail : DetailEnv) :
    List PatentRecord :=
  match search_patents resp with
  | .error _ => []
  | .ok none => []
  | .ok (some refs) =>
    (refs.take 100).map fun d =>
      get_abstract (detail (buildPatentNumber d) (getField d.idType))
        (buildPatentNumber d)

/-- Number of stage-2 detail fetches process_keyword performs: one per
record it inserts, since the loop body fetches then inserts. -/
def process_keyword_detailCalls (resp : SearchResponse) (detail : DetailEnv) :
    Nat :=
  (process_keyword resp detail).length

/-- Aggregate outcome of a run. Modelled from the spec: the source scripts
build no report object; the counts are defined over the per-future outcomes
the as_completed loops of main.py (lines 185-189) and embeddeAndStore.py
(lines 108-114) observe, where each future either completed normally or
holds the exception its worker raised, which the loop logs and discards. -/
structure BatchReport where
  submitted : Nat
  succeeded : Nat
  failed : Nat
deriving DecidableEq

/-- Whether an Except value is a success. -/
def isOk {ε α : Type} : Except ε α → Bool
  | .ok _ => true
  | .error _ => false

/-- The worker-pool pattern shared by both main functions: one future per
submitted item; the as_completed loop visits every future; a worker that
raised has its exception captured by its own future and logged, never
re-raised past the loop, so sibling futures are unaffected. -/
def Pipeline.run {ι ε α : Type} (process : ι → Except ε α) (items : List ι) :
    BatchReport :=
  { submitted := items.length
    succeeded := (items.filter fun i => isOk (process i)).length
    failed := (items.filter fun i => !isOk (process i)).length }

/-- The worker main.py submits per keyword (line 186). The search_patents
call at line 126 sits outside the try of process_keyword, so an
AttributeError raised by the search handler escapes the worker and is
carried by its future; on every other path process_keyword returns early
or catches the exceptions of its result loop (lines 129-157), and the
worker completes normally. -/
def keywordWorker (searchEnv : String → SearchResponse) (detail : DetailEnv)
    (kw : String) : Except String (List PatentRecord) :=
  match search_patents (searchEnv kw) with
  | .error e => .error e
  | .ok _ => .ok (process_keyword (searchEnv kw) detail)

/-- One document fetched from MongoDB by get_abstracts_from_mongodb
(embeddeAndStore.py lines 35-46): the projection keeps patentNumber and
abstract; the abstract field can be absent from a stored document, modelled
as none. The claims treated here concern documents carrying a
patentNumber, which the logging lines read. -/
structure AbstractDoc where
  patentNumber : String
  abstract : Option String
deriving DecidableEq

/-- A patent identifier paired with its embedding vector
(embeddeAndStore.py lines 57-60). -/
structure EmbeddingRecord where
  patentNumber : String
  embedding : List ℚ
deriving DecidableEq

/-- Result of the embeddings.create call: ok vec on success; apiError
models any exception the call raises. -/
inductive EmbedOutcome where
  | ok : List ℚ → EmbedOutcome
  | apiError : EmbedOutcome
deriving DecidableEq

/-- embed_abstract (embeddeAndStore.py lines 48-63): any exception inside
the try block — a missing abstract field raising KeyError, or a failing
embeddings.create call — is caught, logged using the patentNumber, and None
is returned in place of a record. -/
def embed_abstract (api : String → EmbedOutcome) (a : AbstractDoc) :
    Option EmbeddingRecord :=
  match a.abstract with
  | none => none
  | some text =>
    match api text with
    | .apiError => none
    | .ok vec => some { patentNumber := a.patentNumber, embedding := vec }

/-- process_abstract (embeddeAndStore.py lines 94-98): embed, then store
only when embedding produced a record. The result is none when no
vector-store insert call was made, and some b when
store_embedding_in_cloudflare was called and returned b. -/
def process_abstract (api : String → EmbedOutcome)
    (store : EmbeddingRecord → Bool) (a : AbstractDoc) : Option Bool :=
  match embed_abstract api a with
  | none => none
  | some r => some (store r)

/-- Phase of one worker executing ensure_token, decomposing the
unsynchronized check-then-refresh of main.py lines 72-77 (the method takes
no lock; the only lock in main.py belongs to RateLimiter and is not used
here): startP is about to evaluate the expiry check; refreshing has passed
the check and has its external auth request in flight; doneP has finished. -/
inductive Phase where
  | startP : Phase
  | refreshing : Phase
  | doneP : Phase
deriving DecidableEq

/-- Shared state of two workers concurrently calling ensure_token on the
same EPOClient, plus a running count of external auth calls issued. -/
structure PoolState where
  client : EPOClient
  ph0 : Phase
  ph1 : Phase
  authCalls : Nat
deriving DecidableEq

/-- The expiry check of main.py line 74. -/
def refreshDue (c : EPOClient) (now : ℚ) : Bool :=
  decide (c.token_valid_for - 60 ≤ now - c.token_acquired_time)

/-- One atomic step of a single worker inside ensure_token: from startP it
evaluates the check against the shared client and either starts a refresh
or finishes; from refreshing it receives the auth response and writes
token, header and timestamp (main.py lines 75-77), counting one auth
call. -/
def stepThread (env : AuthEnv) (now : ℚ) (c : EPOClient) (ph : Phase) :
    EPOClient × Phase × Nat :=
  match ph with
  | .startP => if refreshDue c now then (c, .refreshing, 0) else (c, .doneP, 0)
  | .refreshing =>
    let t := get_oauth_token env
    ({ c with
        token := t
        authorization := "Bearer " ++ t
        token_acquired_time := now }, .doneP, 1)
  | .doneP => (c, .doneP, 0)

/-- Interleaved step: the scheduled thread (false for worker 0, true for
worker 1) takes its next atomic step against the shared client. -/
def step (env0 env1 : AuthEnv) (now : ℚ) (s : PoolState) (tid : Bool) :
    PoolState :=
  if tid then
    let r := stepThread env1 now s.client s.ph1
    { client := r.1, ph0 := s.ph0, ph1 := r.2.1, authCalls := s.authCalls + r.2.2 }
  else
    let r := stepThread env0 now s.client s.ph0
    { client := r.1, ph0 := r.2.1, ph1 := s.ph1, authCalls := s.authCalls + r.2.2 }

/-- Run a schedule of interleaved steps. -/
def exec (env0 env1 : AuthEnv) (now : ℚ) (s : PoolState) (sched : List Bool) :
    PoolState :=
  sched.foldl (step env0 env1 now) s

/-- Number of refresh requests in flight: workers currently in the
refreshing phase. -/
def inflight (s : PoolState) : Nat :=
  (if s.ph0 = Phase.refreshing then 1 else 0) +
    (if s.ph1 = Phase.refreshing then 1 else 0)

/-- Filtering a list by a predicate and by its negation partitions it. -/
theorem length_filter_partition {α : Type} (p : α → Bool) (l : List α) :
    (l.filter p).length + (l.filter fun x => !p x).length = l.length := by
  induction l with
  | nil => rfl
  | cons a t ih => cases h : p a <;> simp [List.filter_cons, h] <;> omega

/-- Updating one thread entry leaves every other thread entry unchanged. -/
theorem lookupThread_updateThread_ne (m : List (Nat × ℚ)) (tid tid2 : Nat)
    (t : ℚ) (h : tid2 ≠ tid) :
    lookupThread (updateThread m tid t) tid2 = lookupThread m tid2 := by
  induction m with
  | nil => simp [updateThread, lookupThread, Ne.symm h]
  | cons kv rest ih =>
    obtain ⟨k, v⟩ := kv
    by_cases hk : k = tid
    · subst hk
      simp [updateThread, lookupThread, Ne.symm h]
    · simp [updateThread, hk, lookupThread, ih]

/-- On a parsed stage-1 body, process_keyword maps the fetch-and-insert
step over the first 100 references. -/
theorem process_keyword_body (refs : List DocumentId) (detail : DetailEnv) :
    process_keyword (SearchResponse.body refs) detail
      = (refs.take 100).map fun d =>
          get_abstract (detail (buildPatentNumber d) (getField d.idType))
            (buildPatentNumber d) := rfl

/-- get_abstract always carries the patent number it was given. -/
theorem get_abstract_patentNumber (resp : AbstractResponse) (pn : String) :
    (get_abstract resp pn).patentNumber = pn := by
  cases resp <;> rfl

/-- C1: for every submitted item list the report satisfies
succeeded + failed = submitted with submitted the input length, and a
worker that raises contributes exactly one failed outcome while the
outcomes of its sibling items before and after it are unchanged. -/
theorem claim1_every_item_one_outcome {ι ε α : Type}
    (process : ι → Except ε α) (items xs ys : List ι) (b : ι) (e : ε)
    (hb : process b = Except.error e) :
    ((Pipeline.run process items).succeeded + (Pipeline.run process items).failed
        = (Pipeline.run process items).submitted)
    ∧ (Pipeline.run process items).submitted = items.length
    ∧ (Pipeline.run process (xs ++ b :: ys)).failed
        = (Pipeline.run process xs).failed + 1 + (Pipeline.run process ys).failed
    ∧ (Pipeline.run process (xs ++ b :: ys)).succeeded
        = (Pipeline.run process xs).succeeded + (Pipeline.run process ys).succeeded := by
  refine ⟨length_filter_partition _ _, rfl, ?_, ?_⟩
  · simp [Pipeline.run, List.filter_append, List.filter_cons, hb, isOk]
    omega
  · simp [Pipeline.run, List.filter_append, List.filter_cons, hb, isOk]

/-- A concrete worker for the C1 witness: item 0 raises, every other item
completes. -/
def crashDemo : Nat → Except Nat Nat :=
  fun n => if n = 0 then Except.error 0 else Except.ok n

/-- Witness for C1 at a concrete run of three items where item 0 raises. -/
theorem claim1_witness :
    crashDemo 0 = Except.error 0
    ∧ (((Pipeline.run crashDemo [0, 1, 2]).succeeded
          + (Pipeline.run crashDemo [0, 1, 2]).failed
          = (Pipeline.run crashDemo [0, 1, 2]).submitted)
      ∧ (Pipeline.run crashDemo [0, 1, 2]).submitted = ([0, 1, 2] : List Nat).length
      ∧ (Pipeline.run crashDemo ([1] ++ 0 :: [2])).failed
          = (Pipeline.run crashDemo [1]).failed + 1 + (Pipeline.run crashDemo [2]).failed
      ∧ (Pipeline.run crashDemo ([1] ++ 0 :: [2])).succeeded
          = (Pipeline.run crashDemo [1]).succeeded
            + (Pipeline.run crashDemo [2]).succeeded) :=
  ⟨rfl, claim1_every_item_one_outcome crashDemo [0, 1, 2] [1] [2] 0 0 rfl⟩

/-- C2: ensure_token refreshes exactly when the elapsed time reaches the
validity duration minus the 60 second margin — performing exactly one auth
call, installing the returned token and header and updating the
acquisition timestamp — and otherwise returns the client unchanged with no
auth call. -/
theorem claim2_ensure_token_refresh_boundary (c : EPOClient) (env : AuthEnv)
    (now : ℚ) :
    (c.token_valid_for - 60 ≤ now - c.token_acquired_time →
      c.ensure_token env now =
        ({ token := get_oauth_token env
           token_acquired_time := now
           token_valid_for := c.token_valid_for
           authorization := "Bearer " ++ get_oauth_token env }, 1))
    ∧ (now - c.token_acquired_time < c.token_valid_for - 60 →
      c.ensure_token env now = (c, 0)) := by
  constructor
  · intro h
    unfold EPOClient.ensure_token
    rw [if_pos h]
  · intro h
    unfold EPOClient.ensure_token
    rw [if_neg (not_le.mpr h)]

/-- Witness for C2: validity 1200, margin 60, token acquired at time 0. A
call at elapsed 1145 refreshes with one auth call; a call at elapsed 1000
returns the existing token with no refresh. -/
theorem claim2_witness :
    ((1200 : ℚ) - 60 ≤ 1145 - 0
      ∧ (EPOClient.mk "tok" 0 1200 "Bearer tok").ensure_token ⟨some "newtok"⟩ 1145 =
          ({ token := "newtok"
             token_acquired_time := 1145
             token_valid_for := 1200
             authorization := "Bearer newtok" }, 1))
    ∧ ((1000 : ℚ) - 0 < 1200 - 60
      ∧ (EPOClient.mk "tok" 0 1200 "Bearer tok").ensure_token ⟨some "newtok"⟩ 1000 =
          (EPOClient.mk "tok" 0 1200 "Bearer tok", 0)) :=
  ⟨⟨by norm_num,
    (claim2_ensure_token_refresh_boundary _ _ _).1 (by norm_num)⟩,
   ⟨by norm_num,
    (claim2_ensure_token_refresh_boundary _ _ _).2 (by norm_num)⟩⟩

/-- C9: the rate gate resumes a caller no earlier than the configured delay
after the previous recorded call of that same caller; a zero delay never
sleeps under a monotone clock; and a call by one thread leaves the
timestamps of all other threads unchanged. -/
theorem claim9_rate_gate (rl : RateLimiter) (tid tid2 : Nat) (now last : ℚ)
    (hlast : lookupThread rl.last_call tid = some last) (h2 : tid2 ≠ tid) :
    rl.delay ≤ (rl.wait tid now).2 - last
    ∧ (rl.delay = 0 → last ≤ now → (rl.wait tid now).2 = now)
    ∧ lookupThread (rl.wait tid now).1.last_call tid2
        = lookupThread rl.last_call tid2 := by
  refine ⟨?_, ?_, ?_⟩
  · simp [RateLimiter.wait, RateLimiter.sleepAmount, hlast]
    split
    · linarith
    · linarith
  · intro hd hmono
    simp [RateLimiter.wait, RateLimiter.sleepAmount, hlast, hd]
    intro hlt
    linarith
  · simp [RateLimiter.wait]
    exact lookupThread_updateThread_ne _ _ _ _ h2

/-- Witness for C9: a limiter with delay 0 and a recorded call of thread 1
at time 10; a wait of thread 1 at time 11 resumes immediately and leaves
the entry of thread 0 unchanged. -/
theorem claim9_witness :
    lookupThread [((1 : Nat), (10 : ℚ))] 1 = some 10
    ∧ (0 : Nat) ≠ 1
    ∧ ((RateLimiter.mk 0 [(1, 10)]).delay
          ≤ ((RateLimiter.mk 0 [(1, 10)]).wait 1 11).2 - 10
      ∧ ((RateLimiter.mk 0 [(1, 10)]).delay = 0 → (10 : ℚ) ≤ 11 →
          ((RateLimiter.mk 0 [(1, 10)]).wait 1 11).2 = 11)
      ∧ lookupThread ((RateLimiter.mk 0 [(1, 10)]).wait 1 11).1.last_call 0
          = lookupThread [((1 : Nat), (10 : ℚ))] 0) :=
  ⟨rfl, by decide, claim9_rate_gate (RateLimiter.mk 0 [(1, 10)]) 1 0 11 10 rfl (by decide)⟩

/-- C10: when embedding fails no vector-store insert is made for that
record, an embedding-call failure makes embed_abstract return none rather
than raise, and a store call happens only for a successfully computed
embedding record. -/
theorem claim10_no_store_without_embedding (api : String → EmbedOutcome)
    (store : EmbeddingRecord → Bool) (a : AbstractDoc) :
    (embed_abstract api a = none → process_abstract api store a = none)
    ∧ (∀ text, a.abstract = some text → api text = EmbedOutcome.apiError →
        embed_abstract api a = none)
    ∧ (∀ b, process_abstract api store a = some b →
        ∃ r, embed_abstract api a = some r ∧ b = store r) := by
  refine ⟨?_, ?_, ?_⟩
  · intro h
    simp [process_abstract, h]
  · intro text ht ha
    simp [embed_abstract, ht, ha]
  · intro b hb
    unfold process_abstract at hb
    cases h : embed_abstract api a with
    | none => rw [h] at hb; cases hb
    | some r =>
      rw [h] at hb
      injection hb with hb2
      exact ⟨r, rfl, hb2.symm⟩

/-- Witness for C10: an embedding API that always raises yields none from
embed_abstract, and process_abstract makes no store call. -/
theorem claim10_witness :
    embed_abstract (fun _ => EmbedOutcome.apiError)
        { patentNumber := "EP1A", abstract := some "text" } = none
    ∧ process_abstract (fun _ => EmbedOutcome.apiError) (fun _ => true)
        { patentNumber := "EP1A", abstract := some "text" } = none :=
  ⟨rfl,
   (claim10_no_store_without_embedding (fun _ => EmbedOutcome.apiError)
      (fun _ => true) { patentNumber := "EP1A", abstract := some "text" }).1 rfl⟩

/-- C3 counterexample: ensure_token takes no lock, so when two workers both
evaluate the expiry check before either finishes its refresh, both refresh
requests are in flight at once (inflight = 2, not at most 1), and running
both workers to completion issues one auth call per worker (2 calls, not a
single coalesced call). Client acquired its token at time 0 with validity
1200; both workers call at time 1150. -/
theorem claim3_counterexample :
    inflight (exec ⟨some "a"⟩ ⟨some "b"⟩ 1150
        ⟨EPOClient.mk "tok0" 0 1200 "Bearer tok0", Phase.startP, Phase.startP, 0⟩
        [false, true]) = 2
    ∧ ¬ inflight (exec ⟨some "a"⟩ ⟨some "b"⟩ 1150
        ⟨EPOClient.mk "tok0" 0 1200 "Bearer tok0", Phase.startP, Phase.startP, 0⟩
        [false, true]) ≤ 1
    ∧ (exec ⟨some "a"⟩ ⟨some "b"⟩ 1150
        ⟨EPOClient.mk "tok0" 0 1200 "Bearer tok0", Phase.startP, Phase.startP, 0⟩
        [false, true, false, true]).authCalls = 2 := by
  have h : refreshDue (EPOClient.mk "tok0" 0 1200 "Bearer tok0") 1150 = true := by
    unfold refreshDue
    rw [decide_eq_true_eq]
    show (1200 : ℚ) - 60 ≤ 1150 - 0
    norm_num
  refine ⟨?_, ?_, ?_⟩ <;>
    simp [exec, List.foldl, step, stepThread, h, inflight]

/-- C3 amended: ensure_token performs its expiry check and refresh without
mutual exclusion; whenever the refresh is due, the schedule in which both
workers evaluate the check before either writes puts two refresh requests
in flight simultaneously, and the completed run issues one auth call per
worker. -/
theorem claim3_unsynchronized_refresh (c : EPOClient) (env0 env1 : AuthEnv)
    (now : ℚ) (h : refreshDue c now = true) :
    inflight (exec env0 env1 now ⟨c, Phase.startP, Phase.startP, 0⟩
        [false, true]) = 2
    ∧ (exec env0 env1 now ⟨c, Phase.startP, Phase.startP, 0⟩
        [false, true, false, true]).authCalls = 2 := by
  constructor
  · simp [exec, List.foldl, step, stepThread, h, inflight]
  · simp [exec, List.foldl, step, stepThread, h]

/-- Witness for C3 amended: a client with validity 1200 whose token was
acquired at time 0, with both workers calling at time 1200. -/
theorem claim3_witness :
    refreshDue (EPOClient.mk "t" 0 1200 "Bearer t") 1200 = true
    ∧ (inflight (exec ⟨some "x"⟩ ⟨some "y"⟩ 1200
          ⟨EPOClient.mk "t" 0 1200 "Bearer t", Phase.startP, Phase.startP, 0⟩
          [false, true]) = 2
      ∧ (exec ⟨some "x"⟩ ⟨some "y"⟩ 1200
          ⟨EPOClient.mk "t" 0 1200 "Bearer t", Phase.startP, Phase.startP, 0⟩
          [false, true, false, true]).authCalls = 2) :=
  ⟨by unfold refreshDue
      rw [decide_eq_true_eq]
      show (1200 : ℚ) - 60 ≤ 1200 - 0
      norm_num,
   claim3_unsynchronized_refresh (EPOClient.mk "t" 0 1200 "Bearer t")
     ⟨some "x"⟩ ⟨some "y"⟩ 1200
     (by unfold refreshDue
         rw [decide_eq_true_eq]
         show (1200 : ℚ) - 60 ≤ 1200 - 0
         norm_num)⟩

/-- C4 counterexample: a client holding valid token tok0 whose refresh is
due at time 1150 performs a refresh whose auth call fails; ensure_token
then installs the empty string returned by get_oauth_token, so neither the
last valid token nor the last valid Authorization header is retained. -/
theorem claim4_counterexample :
    ((EPOClient.mk "tok0" 0 1200 "Bearer tok0").ensure_token ⟨none⟩ 1150).1.token = ""
    ∧ ((EPOClient.mk "tok0" 0 1200 "Bearer tok0").ensure_token ⟨none⟩ 1150).1.token ≠ "tok0"
    ∧ ((EPOClient.mk "tok0" 0 1200 "Bearer tok0").ensure_token ⟨none⟩ 1150).1.authorization = "Bearer "
    ∧ ((EPOClient.mk "tok0" 0 1200 "Bearer tok0").ensure_token ⟨none⟩ 1150).1.authorization ≠ "Bearer tok0" := by
  have hc : (EPOClient.mk "tok0" 0 1200 "Bearer tok0").token_valid_for - 60
      ≤ (1150 : ℚ) - (EPOClient.mk "tok0" 0 1200 "Bearer tok0").token_acquired_time := by
    show (1200 : ℚ) - 60 ≤ 1150 - 0
    norm_num
  unfold EPOClient.ensure_token
  rw [if_pos hc]
  exact ⟨rfl, by decide, rfl, by decide⟩

/-- C4 amended: when the refresh is due and the external auth call fails,
get_oauth_token returns the empty string and ensure_token installs it,
replacing the previous token with the empty string and the Authorization
header with a Bearer value holding an empty token — the last valid token is
discarded, not retained. -/
theorem claim4_failed_refresh_discards_token (c : EPOClient) (env : AuthEnv)
    (now : ℚ)
    (hdue : c.token_valid_for - 60 ≤ now - c.token_acquired_time)
    (hfail : env.respond = none) :
    (c.ensure_token env now).1.token = ""
    ∧ (c.ensure_token env now).1.authorization = "Bearer "
    ∧ (c.ensure_token env now).2 = 1 := by
  obtain ⟨r⟩ := env
  cases hfail
  unfold EPOClient.ensure_token
  rw [if_pos hdue]
  exact ⟨rfl, rfl, rfl⟩

/-- Witness for C4 amended at a concrete client and failing auth call. -/
theorem claim4_witness :
    ((1200 : ℚ) - 60 ≤ 1190 - 0
      ∧ (AuthEnv.mk none).respond = none)
    ∧ (((EPOClient.mk "old" 0 1200 "Bearer old").ensure_token ⟨none⟩ 1190).1.token = ""
      ∧ ((EPOClient.mk "old" 0 1200 "Bearer old").ensure_token ⟨none⟩ 1190).1.authorization = "Bearer "
      ∧ ((EPOClient.mk "old" 0 1200 "Bearer old").ensure_token ⟨none⟩ 1190).2 = 1) :=
  ⟨⟨by norm_num, rfl⟩,
   claim4_failed_refresh_discards_token (EPOClient.mk "old" 0 1200 "Bearer old")
     ⟨none⟩ 1190 (by norm_num) rfl⟩

/-- Stage-1 environment in which the search for every keyword fails with a
non-2xx HTTP status, the caught exception carrying its response. -/
def failingSearch : String → SearchResponse :=
  fun _ => SearchResponse.httpStatusError

/-- Detail environment for scenarios in which stage 2 is never reached. -/
def unusedDetail : DetailEnv := fun _ _ => AbstractResponse.httpError

/-- C5 counterexample: input list containing only battery with a stage-1
HTTP failure. No stage-2 fetch happens and zero records are stored, but the
worker returns normally, so the run reports succeeded 1 and failed 0 — not
the failed 1 NetworkError outcome the claim requires. -/
theorem claim5_counterexample :
    Pipeline.run (keywordWorker failingSearch unusedDetail) ["battery"]
        = { submitted := 1, succeeded := 1, failed := 0 }
    ∧ (Pipeline.run (keywordWorker failingSearch unusedDetail) ["battery"]).failed ≠ 1
    ∧ process_keyword (failingSearch "battery") unusedDetail = []
    ∧ process_keyword_detailCalls (failingSearch "battery") unusedDetail = 0 := by
  refine ⟨rfl, by decide, rfl, rfl⟩

/-- C5 amended: a keyword whose stage-1 search fails has no stage-2 detail
fetch attempted and zero records stored, on either failure path. When the
caught exception carries a response (non-2xx HTTP status), the failure is
only logged: the worker completes normally, so the item yields no failure
outcome and a single-item run reports it as succeeded. When the caught
exception carries no response (malformed body or transport failure), the
logging handler itself raises AttributeError out of search_patents, the
worker raises, and a single-item run reports the item as failed. -/
theorem claim5_stage1_failure_skips_item (searchEnv : String → SearchResponse)
    (detail : DetailEnv) (kw kw2 : String)
    (h : searchEnv kw = SearchResponse.httpStatusError)
    (h2 : searchEnv kw2 = SearchResponse.transportError) :
    (process_keyword (searchEnv kw) detail = []
      ∧ process_keyword_detailCalls (searchEnv kw) detail = 0
      ∧ keywordWorker searchEnv detail kw = Except.ok []
      ∧ Pipeline.run (keywordWorker searchEnv detail) [kw]
          = { submitted := 1, succeeded := 1, failed := 0 })
    ∧ (process_keyword (searchEnv kw2) detail = []
      ∧ process_keyword_detailCalls (searchEnv kw2) detail = 0
      ∧ keywordWorker searchEnv detail kw2
          = Except.error "AttributeError: NoneType object has no attribute content"
      ∧ Pipeline.run (keywordWorker searchEnv detail) [kw2]
          = { submitted := 1, succeeded := 0, failed := 1 }) := by
  have hw : keywordWorker searchEnv detail kw = Except.ok [] := by
    unfold keywordWorker
    rw [h]
    rfl
  have hw2 : keywordWorker searchEnv detail kw2
      = Except.error "AttributeError: NoneType object has no attribute content" := by
    unfold keywordWorker
    rw [h2]
    rfl
  refine ⟨⟨?_, ?_, hw, ?_⟩, ⟨?_, ?_, hw2, ?_⟩⟩
  · rw [h]
    rfl
  · rw [process_keyword_detailCalls, h]
    rfl
  · simp [Pipeline.run, List.filter, hw, isOk]
  · rw [h2]
    rfl
  · rw [process_keyword_detailCalls, h2]
    rfl
  · simp [Pipeline.run, List.filter, hw2, isOk]

/-- Witness for C5 amended: the battery search fails with an HTTP status
(item reported succeeded) and the silicon search fails with a malformed
body or transport error (worker raises, item reported failed). -/
theorem claim5_witness :
    (fun kw => if kw = "battery" then SearchResponse.httpStatusError
        else SearchResponse.transportError) "battery"
        = SearchResponse.httpStatusError
    ∧ (fun kw => if kw = "battery" then SearchResponse.httpStatusError
        else SearchResponse.transportError) "silicon"
        = SearchResponse.transportError
    ∧ ((process_keyword
          ((fun kw => if kw = "battery" then SearchResponse.httpStatusError
            else SearchResponse.transportError) "battery") unusedDetail = []
      ∧ process_keyword_detailCalls
          ((fun kw => if kw = "battery" then SearchResponse.httpStatusError
            else SearchResponse.transportError) "battery") unusedDetail = 0
      ∧ keywordWorker
          (fun kw => if kw = "battery" then SearchResponse.httpStatusError
            else SearchResponse.transportError) unusedDetail "battery"
          = Except.ok []
      ∧ Pipeline.run
          (keywordWorker
            (fun kw => if kw = "battery" then SearchResponse.httpStatusError
              else SearchResponse.transportError) unusedDetail) ["battery"]
          = { submitted := 1, succeeded := 1, failed := 0 })
    ∧ (process_keyword
          ((fun kw => if kw = "battery" then SearchResponse.httpStatusError
            else SearchResponse.transportError) "silicon") unusedDetail = []
      ∧ process_keyword_detailCalls
          ((fun kw => if kw = "battery" then SearchResponse.httpStatusError
            else SearchResponse.transportError) "silicon") unusedDetail = 0
      ∧ keywordWorker
          (fun kw => if kw = "battery" then SearchResponse.httpStatusError
            else SearchResponse.transportError) unusedDetail "silicon"
          = Except.error "AttributeError: NoneType object has no attribute content"
      ∧ Pipeline.run
          (keywordWorker
            (fun kw => if kw = "battery" then SearchResponse.httpStatusError
              else SearchResponse.transportError) unusedDetail) ["silicon"]
          = { submitted := 1, succeeded := 0, failed := 1 })) :=
  ⟨by decide, by decide,
   claim5_stage1_failure_skips_item
     (fun kw => if kw = "battery" then SearchResponse.httpStatusError
       else SearchResponse.transportError)
     unusedDetail "battery" "silicon" (by decide) (by decide)⟩

/-- C6: a stage-2 detail-fetch failure is isolated to its own sub-item: the
record produced at that position carries the fetch-failed sentinel
abstract, while the keyword still yields exactly one record per matched
reference — every other sub-item is still fetched and stored. -/
theorem claim6_subitem_failure_isolated (refs : List DocumentId)
    (detail : DetailEnv) (i : Nat) (d : DocumentId)
    (hd : (refs.take 100)[i]? = some d)
    (hfail : detail (buildPatentNumber d) (getField d.idType)
        = AbstractResponse.httpError) :
    (process_keyword (SearchResponse.body refs) detail).length
        = (refs.take 100).length
    ∧ (process_keyword (SearchResponse.body refs) detail)[i]?
        = some { patentNumber := buildPatentNumber d
                 abstract := "Abstract fetch failed" } := by
  constructor
  · rw [process_keyword_body, List.length_map]
  · rw [process_keyword_body, List.getElem?_map, hd]
    show some (get_abstract (detail (buildPatentNumber d) (getField d.idType))
      (buildPatentNumber d)) = _
    rw [hfail]
    rfl

/-- Witness for C6: two matched references; the detail fetch for the first
fails while the second succeeds; both are stored and the first carries the
sentinel. -/
theorem claim6_witness :
    (([DocumentId.mk (some "EP") (some "1") (some "A") (some "docdb"),
       DocumentId.mk (some "EP") (some "2") (some "B") (some "docdb")].take 100)[0]?
        = some (DocumentId.mk (some "EP") (some "1") (some "A") (some "docdb")))
    ∧ ((fun pn _ => if pn = "EP1A" then AbstractResponse.httpError
          else AbstractResponse.body (some "text2") : DetailEnv)
        (buildPatentNumber (DocumentId.mk (some "EP") (some "1") (some "A") (some "docdb")))
        (getField (DocumentId.mk (some "EP") (some "1") (some "A") (some "docdb")).idType)
        = AbstractResponse.httpError)
    ∧ ((process_keyword
          (SearchResponse.body
            [DocumentId.mk (some "EP") (some "1") (some "A") (some "docdb"),
             DocumentId.mk (some "EP") (some "2") (some "B") (some "docdb")])
          (fun pn _ => if pn = "EP1A" then AbstractResponse.httpError
            else AbstractResponse.body (some "text2"))).length
        = ([DocumentId.mk (some "EP") (some "1") (some "A") (some "docdb"),
            DocumentId.mk (some "EP") (some "2") (some "B") (some "docdb")].take 100).length
      ∧ (process_keyword
          (SearchResponse.body
            [DocumentId.mk (some "EP") (some "1") (some "A") (some "docdb"),
             DocumentId.mk (some "EP") (some "2") (some "B") (some "docdb")])
          (fun pn _ => if pn = "EP1A" then AbstractResponse.httpError
            else AbstractResponse.body (some "text2")))[0]?
        = some { patentNumber := buildPatentNumber
                   (DocumentId.mk (some "EP") (some "1") (some "A") (some "docdb"))
                 abstract := "Abstract fetch failed" }) :=
  ⟨rfl, by decide,
   claim6_subitem_failure_isolated
     [DocumentId.mk (some "EP") (some "1") (some "A") (some "docdb"),
      DocumentId.mk (some "EP") (some "2") (some "B") (some "docdb")]
     (fun pn _ => if pn = "EP1A" then AbstractResponse.httpError
       else AbstractResponse.body (some "text2"))
     0 (DocumentId.mk (some "EP") (some "1") (some "A") (some "docdb"))
     rfl (by decide)⟩

/-- C7: the record stored for each matched reference carries as its primary
identifier the concatenation of country code, document number and kind code
as returned by the API, and each field missing from the response
contributes the empty string instead of aborting. -/
theorem claim7_identifier_concatenation (refs : List DocumentId)
    (detail : DetailEnv) (i : Nat) (d : DocumentId)
    (hd : (refs.take 100)[i]? = some d) :
    ((process_keyword (SearchResponse.body refs) detail)[i]?).map
        PatentRecord.patentNumber
      = some (getField d.country ++ getField d.docNumber ++ getField d.kind)
    ∧ (d.country = none → getField d.country = "")
    ∧ (d.docNumber = none → getField d.docNumber = "")
    ∧ (d.kind = none → getField d.kind = "") := by
  refine ⟨?_, ?_, ?_, ?_⟩
  · rw [process_keyword_body, List.getElem?_map, hd]
    show some ((get_abstract (detail (buildPatentNumber d) (getField d.idType))
      (buildPatentNumber d)).patentNumber) = _
    rw [get_abstract_patentNumber]
    rfl
  · intro h
    rw [getField, h]
    rfl
  · intro h
    rw [getField, h]
    rfl
  · intro h
    rw [getField, h]
    rfl

/-- Witness for C7: a reference whose kind code and id type are missing. -/
theorem claim7_witness :
    (([DocumentId.mk (some "EP") (some "9") none none].take 100)[0]?
        = some (DocumentId.mk (some "EP") (some "9") none none))
    ∧ (((process_keyword
          (SearchResponse.body [DocumentId.mk (some "EP") (some "9") none none])
          unusedDetail)[0]?).map PatentRecord.patentNumber
        = some (getField (some "EP") ++ getField (some "9") ++ getField none)
      ∧ ((DocumentId.mk (some "EP") (some "9") none none).country = none →
          getField (DocumentId.mk (some "EP") (some "9") none none).country = "")
      ∧ ((DocumentId.mk (some "EP") (some "9") none none).docNumber = none →
          getField (DocumentId.mk (some "EP") (some "9") none none).docNumber = "")
      ∧ ((DocumentId.mk (some "EP") (some "9") none none).kind = none →
          getField (DocumentId.mk (some "EP") (some "9") none none).kind = "")) :=
  ⟨rfl,
   claim7_identifier_concatenation
     [DocumentId.mk (some "EP") (some "9") none none] unusedDetail 0
     (DocumentId.mk (some "EP") (some "9") none none) rfl⟩

/-- C8 counterexample: a matched reference whose country, number and kind
are all missing from the response is stored with an empty patentNumber,
violating the non-empty identifier invariant; its abstract still holds the
availability sentinel. -/
theorem claim8_counterexample :
    ((process_keyword
        (SearchResponse.body [DocumentId.mk none none none none])
        (fun _ _ => AbstractResponse.body none))[0]?).map
        PatentRecord.patentNumber = some ""
    ∧ ((process_keyword
        (SearchResponse.body [DocumentId.mk none none none none])
        (fun _ _ => AbstractResponse.body none))[0]?).map
        PatentRecord.abstract = some "No abstract available" :=
  ⟨rfl, rfl⟩

/-- C8 amended: every stored record has an abstract that is never absent —
the fetch-failed sentinel, the no-abstract-available sentinel, or the text
the detail response carried — but the patentNumber may be empty when the
identifier fields are all missing from the search response. -/
theorem claim8_abstract_always_present (refs : List DocumentId)
    (detail : DetailEnv) (r : PatentRecord)
    (hr : r ∈ process_keyword (SearchResponse.body refs) detail) :
    r.abstract = "Abstract fetch failed"
    ∨ r.abstract = "No abstract available"
    ∨ ∃ d, d ∈ refs.take 100
        ∧ detail (buildPatentNumber d) (getField d.idType)
            = AbstractResponse.body (some r.abstract)
        ∧ r.patentNumber = buildPatentNumber d := by
  rw [process_keyword_body] at hr
  obtain ⟨d, hdmem, hdr⟩ := List.mem_map.mp hr
  subst hdr
  cases hresp : detail (buildPatentNumber d) (getField d.idType) with
  | httpError =>
    left
    rfl
  | body t =>
    cases t with
    | none =>
      right; left
      rfl
    | some s =>
      right; right
      exact ⟨d, hdmem, hresp, rfl⟩

/-- Witness for C8 amended: a stored record produced by a failing detail
fetch carries the fetch-failed sentinel. -/
theorem claim8_witness :
    ({ patentNumber := "EP3C", abstract := "Abstract fetch failed" } : PatentRecord)
        ∈ process_keyword
            (SearchResponse.body [DocumentId.mk (some "EP") (some "3") (some "C") none])
            unusedDetail
    ∧ (({ patentNumber := "EP3C", abstract := "Abstract fetch failed" } : PatentRecord).abstract
          = "Abstract fetch failed"
      ∨ ({ patentNumber := "EP3C", abstract := "Abstract fetch failed" } : PatentRecord).abstract
          = "No abstract available"
      ∨ ∃ d, d ∈ [DocumentId.mk (some "EP") (some "3") (some "C") none].take 100
          ∧ unusedDetail (buildPatentNumber d) (getField d.idType)
              = AbstractResponse.body
                  (some ({ patentNumber := "EP3C", abstract := "Abstract fetch failed" } : PatentRecord).abstract)
          ∧ ({ patentNumber := "EP3C", abstract := "Abstract fetch failed" } : PatentRecord).patentNumber
              = buildPatentNumber d) :=
  ⟨by decide,
   claim8_abstract_always_present
     [DocumentId.mk (some "EP") (some "3") (some "C") none] unusedDetail
     { patentNumber := "EP3C", abstract := "Abstract fetch failed" } (by decide)⟩

end EPO
